import Mathlib

/-!
Verification of the Profile-to-Strategy Labeler of the
`investment_recommender_system` repository.

The embedded code is `transform_finaccess_data` from
`scripts/investment_labeling_pipeline.py` and `recommend_investments`
from `main/main.py`.  The pipeline: select fourteen raw columns, rename
them, encode usage / demographic text to numbers, impute medians for the
two money columns, standardize (population mean/variance, sklearn's
`StandardScaler` with its zero-variance fallback `scale = 1`), apply the
same transform to three fixed archetype vectors, and label each row by
the archetype of highest cosine similarity (pandas `nlargest(1)`,
first-occurrence tie-break).

Numeric semantics are idealized as exact rational / real arithmetic.
All comparisons of cosine similarities are performed by an exact
rational decision procedure `simLE`; the lemma `simLE_iff_val_le`
proves that it decides the ordering of the real-valued similarities.
-/

namespace InvestmentRecommender

/-- A raw spreadsheet cell: text, a number, or missing (NaN in pandas). -/
inductive Cell where
  | str (s : String)
  | num (q : ℚ)
  | missing
deriving DecidableEq, Repr

/-- Failures of the pipeline.  `missingColumn` models the pandas
`KeyError` raised by `df[relevant_cols]` when a required column is
absent; `valueError` models the `ValueError` raised by sklearn when the
matrix handed to `fit_transform` / `cosine_similarity` is empty, ragged
or still contains NaN; `badFileType` models the HTTP 400 raised by the
FastAPI endpoint for a non-`.xlsx` filename. -/
inductive PipelineError where
  | missingColumn
  | valueError
  | badFileType
deriving DecidableEq, Repr

/-- A raw table, column-oriented: association list from column code to
the column's cells (one per row), as read by `pd.read_excel`. -/
def RawTable : Type := List (String × List Cell)

/-- The fourteen source column codes selected by the pipeline
(`relevant_cols` in the source). -/
def relevantCols : List String :=
  ["A08", "A13", "B3Ii", "U23",
   "C1_1a", "C1_2", "C1_4", "C1_6", "C1_9",
   "C1_15", "C1_17", "C1_19", "C1_25", "C1_35"]

/-- The fourteen semantic column names (`df_subset.columns = [...]`). -/
def semanticNames : List String :=
  ["area_type", "gender", "monthly_income", "monthly_expenditure",
   "save_bank", "save_mobile_money", "save_sacco", "save_friends", "save_digital",
   "loan_mobile", "loan_sacco", "loan_digital", "loan_family", "invest_forex"]

/-- Look up every requested column; the first absent column aborts with
`missingColumn` (the `KeyError` of `df[relevant_cols]`). -/
def lookupAll (cs : List String) (t : RawTable) :
    Except PipelineError (List (List Cell)) :=
  match cs with
  | [] => .ok []
  | c :: rest =>
    match List.lookup c t with
    | none => .error .missingColumn
    | some col =>
      match lookupAll rest t with
      | .error e => .error e
      | .ok cols => .ok (col :: cols)

/-- Column selection and renaming (steps 2 and 3 of the source):
restrict to the fourteen `relevantCols` and rename them positionally to
`semanticNames`. -/
def selectAndRename (t : RawTable) :
    Except PipelineError (List (String × List Cell)) :=
  match lookupAll relevantCols t with
  | .error e => .error e
  | .ok cols => .ok (semanticNames.zip cols)

/-- The `usage_map.get(x, 0)` encoding: the fixed usage table with
default 0 for any other value, number or missing cell. -/
def usageVal (c : Cell) : ℚ :=
  if c = .str "Never used" then 0
  else if c = .str "Used to use" then 1
  else if c = .str "Currently use" then 2
  else 0

/-- The gender encoding `map` with Male 0 and Female 1: pandas `map`
sends any value outside the dictionary to NaN (`none`). -/
def genderVal (c : Cell) : Option ℚ :=
  if c = .str "Male" then some 0
  else if c = .str "Female" then some 1
  else none

/-- The area-type encoding `map` with Rural 0 and Urban 1; values
outside the dictionary become NaN (`none`). -/
def areaVal (c : Cell) : Option ℚ :=
  if c = .str "Rural" then some 0
  else if c = .str "Urban" then some 1
  else none

/-- A money cell: numeric values pass through, anything else is NaN. -/
def moneyVal (c : Cell) : Option ℚ :=
  match c with
  | .num q => some q
  | _ => none

/-- Stable insertion into a sorted list (ascending). -/
def insertSorted (x : ℚ) : List ℚ → List ℚ
  | [] => [x]
  | y :: ys => if x ≤ y then x :: y :: ys else y :: insertSorted x ys

/-- Ascending sort (insertion sort), used only to take order statistics. -/
def sortQ (l : List ℚ) : List ℚ := l.foldr insertSorted []

/-- The pandas median of a list of present values: middle order statistic
for odd length, mean of the two middle ones for even length, NaN
(`none`) for an empty list. -/
def medianQ (l : List ℚ) : Option ℚ :=
  if l.length = 0 then none
  else
    let s := sortQ l
    if l.length % 2 = 1 then some (s.getD (l.length / 2) 0)
    else some ((s.getD (l.length / 2 - 1) 0 + s.getD (l.length / 2) 0) / 2)

/-- The imputation `col.fillna(col.median())`: every missing entry is replaced by the
median of the column's present entries (recomputed from the given
column; if no entry is present the median is NaN and the entry stays
missing). -/
def fillna (col : List (Option ℚ)) : List (Option ℚ) :=
  col.map fun x =>
    match x with
    | some q => some q
    | none => medianQ (col.filterMap id)

/-- Steps 4–6 of the source applied to the fourteen selected columns (in
`semanticNames` order): encode demographics, pass the two money columns
through `fillna`-with-median, and map the ten behavior columns through
the usage table (never missing, by the 0 default). -/
def encodeTable (cols : List (List Cell)) : List (List (Option ℚ)) :=
  [ (cols.getD 0 []).map areaVal,
    (cols.getD 1 []).map genderVal,
    fillna ((cols.getD 2 []).map moneyVal),
    fillna ((cols.getD 3 []).map moneyVal),
    (cols.getD 4 []).map (fun c => some (usageVal c)),
    (cols.getD 5 []).map (fun c => some (usageVal c)),
    (cols.getD 6 []).map (fun c => some (usageVal c)),
    (cols.getD 7 []).map (fun c => some (usageVal c)),
    (cols.getD 8 []).map (fun c => some (usageVal c)),
    (cols.getD 9 []).map (fun c => some (usageVal c)),
    (cols.getD 10 []).map (fun c => some (usageVal c)),
    (cols.getD 11 []).map (fun c => some (usageVal c)),
    (cols.getD 12 []).map (fun c => some (usageVal c)),
    (cols.getD 13 []).map (fun c => some (usageVal c)) ]

/-- An encoded batch: one list of 14 rationals per household row. -/
def Batch : Type := List (List ℚ)

/-- Mean of a list of rationals (0 on the empty list, never reached for
the batches the pipeline accepts). -/
def listMean (l : List ℚ) : ℚ := l.sum / l.length

/-- Column `j` of the batch. -/
def colOf (b : Batch) (j : ℕ) : List ℚ := b.map fun r => r.getD j 0

/-- Per-column mean fitted by `StandardScaler` on the household batch. -/
def meanCol (b : Batch) (j : ℕ) : ℚ := listMean (colOf b j)

/-- Per-column population variance (`ddof = 0`, as sklearn) fitted on
the household batch. -/
def varCol (b : Batch) (j : ℕ) : ℚ :=
  listMean ((colOf b j).map fun x => (x - meanCol b j) ^ 2)

/-- The square of sklearn's `scale_`: `_handle_zeros_in_scale` replaces a
zero standard deviation by 1, so the divisor applied to a product of two
standardized coordinates is the variance, or 1 for a constant column. -/
def denomCol (b : Batch) (j : ℕ) : ℚ :=
  if varCol b j = 0 then 1 else varCol b j

/-- Inner product of the standardized images of `x` and `y` under the
scaler fitted on batch `b`:
`Σ_j ((x_j − μ_j)/s_j) * ((y_j − μ_j)/s_j)` with `s_j^2 = denomCol b j`.
Exactly rational, since the irrational scale `s_j` appears squared. -/
def sdot (b : Batch) (x y : List ℚ) : ℚ :=
  ∑ j in Finset.range 14,
    (x.getD j 0 - meanCol b j) * (y.getD j 0 - meanCol b j) / denomCol b j

/-- The `Conservative` archetype row of `investment_profiles`. -/
def conservativeProfile : List ℚ :=
  [1, 1, 3/10, 3/10, 2, 1, 2, 1, 0, 0, 0, 0, 0, 0]

/-- The `Balanced` archetype row of `investment_profiles`. -/
def balancedProfile : List ℚ :=
  [1, 1, 1/2, 1/2, 1, 1, 1, 1, 1, 1, 1, 1, 1, 0]

/-- The `Aggressive` archetype row of `investment_profiles`. -/
def aggressiveProfile : List ℚ :=
  [1, 1, 3/5, 3/5, 0, 2, 0, 0, 2, 2, 2, 2, 2, 2]

/-- The three archetype vectors, in the fixed index order of
`investment_profiles`. -/
def archetypeProfile : Fin 3 → List ℚ
  | 0 => conservativeProfile
  | 1 => balancedProfile
  | 2 => aggressiveProfile

/-- The three archetype names, in the same fixed order. -/
def archetypeName : Fin 3 → String
  | 0 => "conservative"
  | 1 => "balanced"
  | 2 => "aggressive"

/-- Sign of the similarity value represented by the pair `(d, q)`,
standing for `d / √q` when `q > 0` and for `0` when `q = 0`. -/
def sgnDQ (d q : ℚ) : Int :=
  if q = 0 then 0 else if 0 < d then 1 else if d < 0 then -1 else 0

/-- Exact rational decision of `d₁/√q₁ ≤ d₂/√q₂` (with the `q = 0 ↦ 0`
convention): compare signs, then compare squares on matching signs. -/
def simLE (d1 q1 d2 q2 : ℚ) : Bool :=
  if sgnDQ d1 q1 < sgnDQ d2 q2 then true
  else if sgnDQ d2 q2 < sgnDQ d1 q1 then false
  else if sgnDQ d1 q1 = 1 then decide (d1 ^ 2 * q2 ≤ d2 ^ 2 * q1)
  else if sgnDQ d1 q1 = -1 then decide (d2 ^ 2 * q1 ≤ d1 ^ 2 * q2)
  else true

/-- Does archetype `m` score at most archetype `k` in cosine similarity
to row `x`?  The common positive factor `1/‖x‖` cancels, so only the
pairs `(sdot b x a, sdot b a a)` matter. -/
def simLEArch (b : Batch) (x : List ℚ) (m k : Fin 3) : Bool :=
  simLE (sdot b x (archetypeProfile m))
    (sdot b (archetypeProfile m) (archetypeProfile m))
    (sdot b x (archetypeProfile k))
    (sdot b (archetypeProfile k) (archetypeProfile k))

/-- The label pick `row.nlargest(1).index[0]` over the three similarity columns:
the first archetype (in order conservative, balanced, aggressive) whose
similarity is maximal. -/
def bestLabel (b : Batch) (x : List ℚ) : String :=
  if simLEArch b x 1 0 && simLEArch b x 2 0 then "conservative"
  else if simLEArch b x 2 1 then "balanced"
  else "aggressive"

/-- Steps 7–9 of the source: fit the scaler on the batch, scale the
archetypes with it, and label every row by maximal cosine similarity. -/
def labelBatch (b : Batch) : List String := b.map (bestLabel b)

/-- Row `i` of the encoded table (the 14 column entries at index `i`). -/
def rowsOf (cols : List (List (Option ℚ))) (n : ℕ) : Batch :=
  (List.range n).map fun i => cols.map fun c => (c.getD i none).getD 0

/-- The batch is well-formed for sklearn: nonempty, rectangular, and
free of NaN.  When this fails the source crashes inside
`fit_transform` / `cosine_similarity` with a `ValueError`. -/
def validCols (cols : List (List (Option ℚ))) (n : ℕ) : Bool :=
  n != 0 && cols.all fun c => c.length == n && c.all Option.isSome

/-- The whole labeling pipeline of `transform_finaccess_data`
(`scripts/investment_labeling_pipeline.py`), from the raw table to the
per-row `investment_label` column.  File I/O (`read_excel`, `to_csv`) is
outside the model; see `runScript` for the write-back. -/
def transform_finaccess_data (t : RawTable) :
    Except PipelineError (List String) :=
  match lookupAll relevantCols t with
  | .error e => .error e
  | .ok cols =>
    let enc := encodeTable cols
    let n := (enc.headD []).length
    if validCols enc n then .ok (labelBatch (rowsOf enc n))
    else .error .valueError

/-- sklearn's `scale_` for column `j`: the standard deviation `√var`,
with `_handle_zeros_in_scale` replacing an exact zero by 1. -/
noncomputable def scaleR (b : Batch) (j : ℕ) : ℝ :=
  if varCol b j = 0 then 1 else Real.sqrt (varCol b j)

/-- The standardized image of row `x` under the scaler fitted on `b`
(`scaler.transform`): coordinate-wise `(x_j − μ_j) / scale_j`. -/
noncomputable def scaledRow (b : Batch) (x : List ℚ) : ℕ → ℝ :=
  fun j => ((x.getD j 0 - meanCol b j : ℚ) : ℝ) / scaleR b j

/-- Euclidean inner product of two 14-dimensional real vectors. -/
noncomputable def rdot (X Y : ℕ → ℝ) : ℝ := ∑ j in Finset.range 14, X j * Y j

/-- Euclidean norm, as computed inside sklearn's `normalize`. -/
noncomputable def sklearnNorm (X : ℕ → ℝ) : ℝ := Real.sqrt (rdot X X)

/-- sklearn's `cosine_similarity` of two rows: each row is divided by
its norm — a zero norm being replaced by 1 (`normalize`) — and the inner
product of the results is taken. -/
noncomputable def cosineSimRows (X Y : ℕ → ℝ) : ℝ :=
  rdot X Y /
    ((if sklearnNorm X = 0 then 1 else sklearnNorm X) *
      (if sklearnNorm Y = 0 then 1 else sklearnNorm Y))

/-- Cosine similarity of the standardized images of `x` and `y` under
the scaler fitted on batch `b` — the entry of `similarity_matrix` the
source compares. -/
noncomputable def cosineSim (b : Batch) (x y : List ℚ) : ℝ :=
  cosineSimRows (scaledRow b x) (scaledRow b y)

/-- The real number represented by the pair `(d, q)`:
`d / √q` for `q ≠ 0`, and `0` for `q = 0`. -/
noncomputable def val (d q : ℚ) : ℝ :=
  if q = 0 then 0 else (d : ℝ) / Real.sqrt q

lemma varCol_nonneg (b : Batch) (j : ℕ) : 0 ≤ varCol b j := by
  unfold varCol listMean
  apply div_nonneg
  · apply List.sum_nonneg
    intro a ha
    obtain ⟨x, _, rfl⟩ := List.mem_map.1 ha
    positivity
  · positivity

lemma denomCol_pos (b : Batch) (j : ℕ) : 0 < denomCol b j := by
  unfold denomCol
  split
  · exact one_pos
  · exact lt_of_le_of_ne (varCol_nonneg b j) (Ne.symm (by assumption))

lemma sdot_self_nonneg (b : Batch) (x : List ℚ) : 0 ≤ sdot b x x := by
  unfold sdot
  apply Finset.sum_nonneg
  intro j _
  exact div_nonneg (mul_self_nonneg _) (denomCol_pos b j).le

/-- If a vector standardizes to zero (zero self inner product), its
inner product with anything is zero. -/
lemma sdot_eq_zero_of_self (b : Batch) (y : List ℚ)
    (h : sdot b y y = 0) (x : List ℚ) : sdot b x y = 0 := by
  have hterm : ∀ j ∈ Finset.range 14,
      (y.getD j 0 - meanCol b j) * (y.getD j 0 - meanCol b j) / denomCol b j = 0 := by
    have := (Finset.sum_eq_zero_iff_of_nonneg
      (fun j _ => div_nonneg (mul_self_nonneg ((y.getD j 0 - meanCol b j)))
        (denomCol_pos b j).le)).1 h
    exact this
  have hy : ∀ j ∈ Finset.range 14, y.getD j 0 - meanCol b j = 0 := by
    intro j hj
    have h0 := hterm j hj
    have hd := (denomCol_pos b j).ne'
    rcases div_eq_zero_iff.1 h0 with h0' | h0'
    · exact mul_self_eq_zero.1 h0'
    · exact absurd h0' hd
  unfold sdot
  apply Finset.sum_eq_zero
  intro j hj
  rw [hy j hj]
  simp

lemma rdot_scaled (b : Batch) (x y : List ℚ) :
    rdot (scaledRow b x) (scaledRow b y) = ((sdot b x y : ℚ) : ℝ) := by
  unfold rdot sdot scaledRow
  push_cast
  refine Finset.sum_congr rfl fun j _ => ?_
  rcases eq_or_ne (varCol b j) 0 with hv | hv
  · simp [scaleR, denomCol, hv]
  · have hv' : (0:ℝ) < (varCol b j : ℝ) := by
      exact_mod_cast lt_of_le_of_ne (varCol_nonneg b j) (Ne.symm hv)
    simp only [scaleR, denomCol, hv, if_false, if_neg hv]
    rw [div_mul_div_comm, Real.mul_self_sqrt hv'.le]

lemma sklearnNorm_scaled (b : Batch) (x : List ℚ) :
    sklearnNorm (scaledRow b x) = Real.sqrt ((sdot b x x : ℚ)) := by
  unfold sklearnNorm
  rw [rdot_scaled]

lemma sklearnNorm_scaled_eq_zero (b : Batch) (x : List ℚ) :
    sklearnNorm (scaledRow b x) = 0 ↔ sdot b x x = 0 := by
  rw [sklearnNorm_scaled]
  have hnn : (0:ℝ) ≤ ((sdot b x x : ℚ) : ℝ) := by exact_mod_cast sdot_self_nonneg b x
  rw [Real.sqrt_eq_zero']
  constructor
  · intro h
    have h0 : ((sdot b x x : ℚ) : ℝ) = 0 := le_antisymm h hnn
    exact_mod_cast h0
  · intro h
    rw [h]
    norm_num

/-- The common positive factor `1/‖x‖` (with sklearn's zero-norm
convention) contributed by the household row. -/
noncomputable def normFac (b : Batch) (x : List ℚ) : ℝ :=
  if sdot b x x = 0 then 1 else Real.sqrt ((sdot b x x : ℚ))

lemma normFac_pos (b : Batch) (x : List ℚ) : 0 < normFac b x := by
  unfold normFac
  split
  · exact one_pos
  · apply Real.sqrt_pos.2
    have h := lt_of_le_of_ne (sdot_self_nonneg b x) (Ne.symm (by assumption))
    exact_mod_cast h

lemma cosineSim_eq_val (b : Batch) (x y : List ℚ) :
    cosineSim b x y = val (sdot b x y) (sdot b y y) / normFac b x := by
  unfold cosineSim cosineSimRows
  rw [rdot_scaled]
  rw [show (if sklearnNorm (scaledRow b x) = 0 then (1:ℝ) else sklearnNorm (scaledRow b x))
        = normFac b x by
      unfold normFac
      rcases eq_or_ne (sdot b x x) 0 with h | h
      · rw [if_pos ((sklearnNorm_scaled_eq_zero b x).2 h), if_pos h]
      · rw [if_neg (fun hc => h ((sklearnNorm_scaled_eq_zero b x).1 hc)), if_neg h,
          sklearnNorm_scaled]]
  rcases eq_or_ne (sdot b y y) 0 with hy | hy
  · have hxy : sdot b x y = 0 := sdot_eq_zero_of_self b y hy x
    rw [hxy, val, if_pos hy]
    simp
  · rw [val, if_neg hy]
    rw [if_neg (fun hc => hy ((sklearnNorm_scaled_eq_zero b y).1 hc)), sklearnNorm_scaled]
    rw [div_div]
    ring_nf

lemma sgnDQ_cases (d q : ℚ) : sgnDQ d q = 1 ∨ sgnDQ d q = 0 ∨ sgnDQ d q = -1 := by
  unfold sgnDQ
  split_ifs <;> simp

lemma sgnDQ_eq_one {d q : ℚ} : sgnDQ d q = 1 ↔ q ≠ 0 ∧ 0 < d := by
  unfold sgnDQ
  split_ifs with h1 h2 h3 <;> simp_all

lemma sgnDQ_eq_negOne {d q : ℚ} : sgnDQ d q = -1 ↔ q ≠ 0 ∧ d < 0 := by
  unfold sgnDQ
  split_ifs with h1 h2 h3 <;> simp_all
  linarith

lemma sgnDQ_eq_zero {d q : ℚ} : sgnDQ d q = 0 ↔ q = 0 ∨ d = 0 := by
  unfold sgnDQ
  split_ifs with h1 h2 h3
  · simp [h1]
  · simp [h1, ne_of_gt h2]
  · simp [h1, ne_of_lt h3]
  · have hd : d = 0 := le_antisymm (not_lt.1 h2) (not_lt.1 h3)
    simp [hd]

lemma val_eq_zero_of_sgn {d q : ℚ} (h : sgnDQ d q = 0) : val d q = 0 := by
  rcases sgnDQ_eq_zero.1 h with h0 | h0
  · simp [val, h0]
  · simp [val, h0]

lemma val_pos_of_sgn {d q : ℚ} (hq : 0 ≤ q) (h : sgnDQ d q = 1) : 0 < val d q := by
  obtain ⟨hq0, hd⟩ := sgnDQ_eq_one.1 h
  have hq' : (0:ℝ) < (q : ℝ) := by exact_mod_cast lt_of_le_of_ne hq (Ne.symm hq0)
  rw [val, if_neg hq0]
  exact div_pos (by exact_mod_cast hd) (Real.sqrt_pos.2 hq')

lemma val_neg_of_sgn {d q : ℚ} (hq : 0 ≤ q) (h : sgnDQ d q = -1) : val d q < 0 := by
  obtain ⟨hq0, hd⟩ := sgnDQ_eq_negOne.1 h
  have hq' : (0:ℝ) < (q : ℝ) := by exact_mod_cast lt_of_le_of_ne hq (Ne.symm hq0)
  rw [val, if_neg hq0]
  apply div_neg_of_neg_of_pos
  · exact_mod_cast hd
  · exact Real.sqrt_pos.2 hq'

lemma val_lt_of_sgn_lt {d1 q1 d2 q2 : ℚ} (h1 : 0 ≤ q1) (h2 : 0 ≤ q2)
    (h : sgnDQ d1 q1 < sgnDQ d2 q2) : val d1 q1 < val d2 q2 := by
  rcases sgnDQ_cases d1 q1 with s1 | s1 | s1 <;>
    rcases sgnDQ_cases d2 q2 with s2 | s2 | s2 <;>
      rw [s1, s2] at h
  all_goals first
    | omega
    | (first
        | exact lt_of_le_of_lt (le_of_eq (val_eq_zero_of_sgn s1)) (val_pos_of_sgn h2 s2)
        | exact lt_of_lt_of_le (val_neg_of_sgn h1 s1) (le_of_eq (val_eq_zero_of_sgn s2).symm)
        | exact lt_trans (val_neg_of_sgn h1 s1) (val_pos_of_sgn h2 s2))

/-- On matching positive signs, the similarity order is decided by
cross-multiplied squares. -/
lemma val_le_val_posCase {d1 q1 d2 q2 : ℚ} (hq1 : 0 < q1) (hq2 : 0 < q2)
    (hd1 : 0 < d1) (hd2 : 0 < d2) :
    (val d1 q1 ≤ val d2 q2 ↔ d1 ^ 2 * q2 ≤ d2 ^ 2 * q1) := by
  rw [val, val, if_neg hq1.ne', if_neg hq2.ne']
  have c1 : (0:ℝ) < (q1 : ℝ) := by exact_mod_cast hq1
  have c2 : (0:ℝ) < (q2 : ℝ) := by exact_mod_cast hq2
  have s1 : (0:ℝ) < Real.sqrt q1 := Real.sqrt_pos.2 c1
  have s2 : (0:ℝ) < Real.sqrt q2 := Real.sqrt_pos.2 c2
  rw [div_le_div_iff s1 s2]
  have cd1 : (0:ℝ) ≤ (d1 : ℝ) := by exact_mod_cast hd1.le
  have cd2 : (0:ℝ) ≤ (d2 : ℝ) := by exact_mod_cast hd2.le
  rw [← pow_le_pow_iff_left (by positivity) (by positivity) (two_ne_zero)]
  rw [mul_pow, mul_pow, Real.sq_sqrt c1.le, Real.sq_sqrt c2.le]
  exact_mod_cast Iff.rfl

lemma val_neg_eq (d q : ℚ) : val (-d) q = -(val d q) := by
  unfold val
  split_ifs with h
  · simp
  · push_cast
    rw [neg_div]

/-- Correctness of `simLE`: it decides the ordering of the represented real similarity
values: `simLE d₁ q₁ d₂ q₂` is true exactly when `d₁/√q₁ ≤ d₂/√q₂`
(with the convention that a pair with `q = 0` represents `0`). -/
lemma simLE_iff_val_le {d1 q1 d2 q2 : ℚ} (h1 : 0 ≤ q1) (h2 : 0 ≤ q2) :
    simLE d1 q1 d2 q2 = true ↔ val d1 q1 ≤ val d2 q2 := by
  rcases lt_trichotomy (sgnDQ d1 q1) (sgnDQ d2 q2) with hs | hs | hs
  · rw [simLE, if_pos hs]
    exact iff_of_true rfl (val_lt_of_sgn_lt h1 h2 hs).le
  · rw [simLE, if_neg (by omega), if_neg (by omega)]
    rcases sgnDQ_cases d1 q1 with s1 | s1 | s1
    · rw [if_pos s1, decide_eq_true_eq]
      have s2 : sgnDQ d2 q2 = 1 := by omega
      obtain ⟨hq1, hd1⟩ := sgnDQ_eq_one.1 s1
      obtain ⟨hq2, hd2⟩ := sgnDQ_eq_one.1 s2
      exact (val_le_val_posCase (lt_of_le_of_ne h1 (Ne.symm hq1))
        (lt_of_le_of_ne h2 (Ne.symm hq2)) hd1 hd2).symm
    · rw [if_neg (by omega), if_neg (by omega)]
      have s2 : sgnDQ d2 q2 = 0 := by omega
      refine iff_of_true rfl ?_
      rw [val_eq_zero_of_sgn s1, val_eq_zero_of_sgn s2]
    · rw [if_neg (by omega), if_pos s1, decide_eq_true_eq]
      have s2 : sgnDQ d2 q2 = -1 := by omega
      obtain ⟨hq1, hd1⟩ := sgnDQ_eq_negOne.1 s1
      obtain ⟨hq2, hd2⟩ := sgnDQ_eq_negOne.1 s2
      have key := val_le_val_posCase (lt_of_le_of_ne h2 (Ne.symm hq2))
        (lt_of_le_of_ne h1 (Ne.symm hq1)) (neg_pos.2 hd2) (neg_pos.2 hd1)
      rw [val_neg_eq, val_neg_eq, neg_le_neg_iff, neg_sq, neg_sq] at key
      exact key.symm
  · rw [simLE, if_neg (by omega), if_pos hs]
    exact iff_of_false (by simp) (not_le.2 (val_lt_of_sgn_lt h2 h1 hs))

/-- Correctness of `simLEArch`: it decides the ordering of the real cosine similarities of
row `x` to two archetypes. -/
lemma simLEArch_iff (b : Batch) (x : List ℚ) (m k : Fin 3) :
    simLEArch b x m k = true ↔
      cosineSim b x (archetypeProfile m) ≤ cosineSim b x (archetypeProfile k) := by
  rw [cosineSim_eq_val, cosineSim_eq_val, div_le_div_right (normFac_pos b x)]
  exact simLE_iff_val_le (sdot_self_nonneg b _) (sdot_self_nonneg b _)

lemma getD_map {α β : Type} (f : α → β) (l : List α) (i : ℕ) (hi : i < l.length)
    (d : α) (d' : β) : (l.map f).getD i d' = f (l.getD i d) := by
  rw [List.getD_eq_getElem?_getD, List.getElem?_map, List.getD_eq_getElem?_getD,
    List.getElem?_eq_getElem hi]
  simp

lemma labelBatch_getD (b : Batch) (i : ℕ) (hi : i < b.length) :
    (labelBatch b).getD i "" = bestLabel b (b.getD i []) := by
  unfold labelBatch
  exact getD_map (bestLabel b) b i hi [] ""

lemma colOf_replicate (n : ℕ) (r : List ℚ) (j : ℕ) :
    colOf (List.replicate n r) j = List.replicate n (r.getD j 0) := by
  unfold colOf
  rw [List.map_replicate]

lemma meanCol_replicate {n : ℕ} (hn : n ≠ 0) (r : List ℚ) (j : ℕ) :
    meanCol (List.replicate n r) j = r.getD j 0 := by
  unfold meanCol listMean
  rw [colOf_replicate, List.sum_replicate, List.length_replicate, nsmul_eq_mul]
  exact mul_div_cancel_left₀ _ (by exact_mod_cast hn)

lemma varCol_replicate {n : ℕ} (hn : n ≠ 0) (r : List ℚ) (j : ℕ) :
    varCol (List.replicate n r) j = 0 := by
  unfold varCol listMean
  rw [colOf_replicate, meanCol_replicate hn, List.map_replicate, sub_self]
  norm_num

/-- Any household row of a batch of identical rows standardizes to the
zero vector, so all its standardized inner products vanish. -/
lemma sdot_replicate_left {n : ℕ} (hn : n ≠ 0) (r y : List ℚ) :
    sdot (List.replicate n r) r y = 0 := by
  unfold sdot
  apply Finset.sum_eq_zero
  intro j _
  rw [meanCol_replicate hn, sub_self]
  simp

lemma sgnDQ_zero_left (q : ℚ) : sgnDQ 0 q = 0 := by
  unfold sgnDQ
  split_ifs with h1 h2
  · rfl
  · exact absurd h2 (lt_irrefl 0)
  · rfl

lemma simLE_zero_zero (q1 q2 : ℚ) : simLE 0 q1 0 q2 = true := by
  unfold simLE
  rw [sgnDQ_zero_left, sgnDQ_zero_left]
  simp

lemma bestLabel_replicate {n : ℕ} (hn : n ≠ 0) (r : List ℚ) :
    bestLabel (List.replicate n r) r = "conservative" := by
  have hz : ∀ k : Fin 3, ∀ m : Fin 3,
      simLEArch (List.replicate n r) r m k = true := by
    intro k m
    unfold simLEArch
    rw [sdot_replicate_left hn, sdot_replicate_left hn]
    exact simLE_zero_zero _ _
  unfold bestLabel
  rw [hz 0 1, hz 0 2]
  simp

/-- A batch of identical rows is labeled all-"conservative": every
column is constant, sklearn's fallback sets every scale to 1, all
standardized rows are zero, all three similarities are 0, and the
first-position tie-break picks the conservative archetype. -/
lemma labelBatch_replicate {n : ℕ} (hn : n ≠ 0) (r : List ℚ) :
    labelBatch (List.replicate n r) = List.replicate n "conservative" := by
  unfold labelBatch
  rw [List.map_replicate, bestLabel_replicate hn]

/-- C1: For every batch, the label the pipeline assigns to each row is
the name of the archetype whose standardized vector has the highest
cosine similarity to the row's standardized vector, ties broken in
favour of the first archetype in the fixed ordering (conservative,
balanced, aggressive); in particular every assigned label is one of the
three fixed archetype names. -/
theorem label_is_first_argmax_of_cosine (b : Batch) (i : ℕ) (hi : i < b.length) :
    ∃ k : Fin 3,
      (labelBatch b).getD i "" = archetypeName k ∧
      (∀ m : Fin 3, cosineSim b (b.getD i []) (archetypeProfile m) ≤
        cosineSim b (b.getD i []) (archetypeProfile k)) ∧
      (∀ m : Fin 3, m < k → cosineSim b (b.getD i []) (archetypeProfile m) <
        cosineSim b (b.getD i []) (archetypeProfile k)) := by
  rw [labelBatch_getD b i hi]
  set x := b.getD i [] with hx
  have iff10 := simLEArch_iff b x 1 0
  have iff20 := simLEArch_iff b x 2 0
  have iff21 := simLEArch_iff b x 2 1
  by_cases h1 : simLEArch b x 1 0 = true ∧ simLEArch b x 2 0 = true
  · refine ⟨0, ?_, ?_, ?_⟩
    · unfold bestLabel
      rw [if_pos (by rw [Bool.and_eq_true]; exact h1)]
      rfl
    · intro m
      fin_cases m
      · exact le_refl _
      · exact iff10.1 h1.1
      · exact iff20.1 h1.2
    · intro m hm
      exact absurd hm (by simp [Fin.lt_def])
  · have hb1 : ¬ ((simLEArch b x 1 0 && simLEArch b x 2 0) = true) := by
      rw [Bool.and_eq_true]
      exact h1
    by_cases h2 : simLEArch b x 2 1 = true
    · have hs21 : cosineSim b x (archetypeProfile 2) ≤ cosineSim b x (archetypeProfile 1) :=
        iff21.1 h2
      have h01 : cosineSim b x (archetypeProfile 0) < cosineSim b x (archetypeProfile 1) := by
        by_contra hc
        push_neg at hc
        exact h1 ⟨iff10.2 hc, iff20.2 (le_trans hs21 hc)⟩
      refine ⟨1, ?_, ?_, ?_⟩
      · unfold bestLabel
        rw [if_neg hb1, if_pos h2]
        rfl
      · intro m
        fin_cases m
        · exact h01.le
        · exact le_refl _
        · exact hs21
      · intro m hm
        fin_cases m
        · exact h01
        · exact absurd hm (by simp [Fin.lt_def])
        · exact absurd hm (by simp [Fin.lt_def])
    · have hs12 : cosineSim b x (archetypeProfile 1) < cosineSim b x (archetypeProfile 2) := by
        by_contra hc
        push_neg at hc
        exact h2 (iff21.2 hc)
      have h02 : cosineSim b x (archetypeProfile 0) < cosineSim b x (archetypeProfile 2) := by
        by_cases h10 : simLEArch b x 1 0 = true
        · rcases not_and_or.1 h1 with hA | hB
          · exact absurd h10 hA
          · by_contra hc
            push_neg at hc
            exact hB (iff20.2 hc)
        · have : cosineSim b x (archetypeProfile 0) < cosineSim b x (archetypeProfile 1) := by
            by_contra hc
            push_neg at hc
            exact h10 (iff10.2 hc)
          exact lt_trans this hs12
      refine ⟨2, ?_, ?_, ?_⟩
      · unfold bestLabel
        rw [if_neg hb1, if_neg (by simpa using h2)]
        rfl
      · intro m
        fin_cases m
        · exact h02.le
        · exact hs12.le
        · exact le_refl _
      · intro m hm
        fin_cases m
        · exact h02
        · exact hs12
        · exact absurd hm (by simp [Fin.lt_def])

/-- Witness for C1 at a concrete batch and row index. -/
theorem label_is_first_argmax_of_cosine_witness :
    ∃ k : Fin 3,
      (labelBatch [[1]]).getD 0 "" = archetypeName k ∧
      (∀ m : Fin 3, cosineSim [[1]] (([[1]] : Batch).getD 0 []) (archetypeProfile m) ≤
        cosineSim [[1]] (([[1]] : Batch).getD 0 []) (archetypeProfile k)) ∧
      (∀ m : Fin 3, m < k → cosineSim [[1]] (([[1]] : Batch).getD 0 []) (archetypeProfile m) <
        cosineSim [[1]] (([[1]] : Batch).getD 0 []) (archetypeProfile k)) :=
  label_is_first_argmax_of_cosine [[1]] 0 (by norm_num)

/-- The standardized archetype matrix used by the labeler
(`investment_scaled = scaler.transform(investment_profiles)`). -/
noncomputable def scaledArchetype (b : Batch) (k : Fin 3) : ℕ → ℝ :=
  scaledRow b (archetypeProfile k)

/-- C2: the similarity the labeler computes compares the household row
and the archetype after both are passed through the one transform fitted
on the batch of household vectors: per column, subtract `meanCol b j`
and divide by `scaleR b j`, where mean and variance are statistics of
the household batch only; the archetype constants are the fixed literal
vectors, never refit. -/
theorem scaler_fit_on_batch_applied_to_archetypes
    (b : Batch) (x : List ℚ) (k : Fin 3) (j : ℕ) :
    cosineSim b x (archetypeProfile k) =
      cosineSimRows (scaledRow b x) (scaledArchetype b k) ∧
    scaledArchetype b k j =
      (((archetypeProfile k).getD j 0 - meanCol b j : ℚ) : ℝ) / scaleR b j ∧
    scaledRow b x j = ((x.getD j 0 - meanCol b j : ℚ) : ℝ) / scaleR b j ∧
    meanCol b j = (b.map fun r => r.getD j 0).sum / (b.map fun r => r.getD j 0).length ∧
    varCol b j =
      ((b.map fun r => r.getD j 0).map fun v =>
        (v - meanCol b j) ^ 2).sum / (b.map fun r => r.getD j 0).length ∧
    scaleR b j = (if varCol b j = 0 then 1 else Real.sqrt (varCol b j)) ∧
    archetypeProfile 0 = conservativeProfile ∧
    archetypeProfile 1 = balancedProfile ∧
    archetypeProfile 2 = aggressiveProfile := by
  refine ⟨rfl, rfl, rfl, rfl, ?_, rfl, rfl, rfl, rfl⟩
  unfold varCol listMean colOf
  rw [List.length_map]

/-- C3: a batch of exactly one row never divides by zero: every column
has zero variance, sklearn's `_handle_zeros_in_scale` fallback sets
every scale to 1, and the labeler still returns a labeled result — the
similarities all compute to 0 and the tie falls to "conservative". -/
theorem single_row_batch_fallback (r : List ℚ) :
    (∀ j : ℕ, varCol [r] j = 0) ∧ labelBatch [r] = ["conservative"] := by
  constructor
  · intro j
    have := varCol_replicate (n := 1) one_ne_zero r j
    simpa using this
  · have := labelBatch_replicate (n := 1) one_ne_zero r
    simpa using this

/-- The observable state of the script: the content written at the
output CSV path (`df_subset.to_csv(output_csv_path)`), abstracted as the
label column, or `none` when nothing has been written. -/
def ScriptState : Type := Option (List String)

/-- One run of `transform_finaccess_data` including its write-back: on
success the labeled result overwrites the output file; on failure the
exception propagates and the file is untouched. -/
def runScript (t : RawTable) (fs : ScriptState) :
    ScriptState × Except PipelineError (List String) :=
  match transform_finaccess_data t with
  | .ok labels => (some labels, .ok labels)
  | .error e => (fs, .error e)

/-- C4: the labeler is deterministic and idempotent: a second run on the
same input returns the identical result and leaves the observable state
exactly as after one run, so re-invocation is indistinguishable from a
single invocation. -/
theorem labeler_idempotent (t : RawTable) (fs : ScriptState) :
    runScript t (runScript t fs).1 = runScript t fs := by
  unfold runScript
  cases transform_finaccess_data t <;> rfl

/-- Positive standardized inner product with a non-degenerate archetype
gives positive cosine similarity. -/
lemma cosineSim_pos_of (b : Batch) (x y : List ℚ)
    (hd : 0 < sdot b x y) (hy : sdot b y y ≠ 0) : 0 < cosineSim b x y := by
  rw [cosineSim_eq_val]
  exact div_pos
    (val_pos_of_sgn (sdot_self_nonneg b y) (sgnDQ_eq_one.2 ⟨hy, hd⟩))
    (normFac_pos b x)

/-- Negative standardized inner product with a non-degenerate archetype
gives negative cosine similarity. -/
lemma cosineSim_neg_of (b : Batch) (x y : List ℚ)
    (hd : sdot b x y < 0) (hy : sdot b y y ≠ 0) : cosineSim b x y < 0 := by
  rw [cosineSim_eq_val]
  exact div_neg_of_neg_of_pos
    (val_neg_of_sgn (sdot_self_nonneg b y) (sgnDQ_eq_negOne.2 ⟨hy, hd⟩))
    (normFac_pos b x)

/-- First row of the C5 counterexample batch. -/
def cexRowA : List ℚ := [0, 1, 2, 0, 0, 2, 0, 0, 2, 0, 1, 0, 0, 2]

/-- Second row of the C5 counterexample batch, before the increase. -/
def cexRowB : List ℚ := [1, 1, 1, 0, 0, 0, 2, 0, 1, 1, 0, 0, 1, 1]

/-- The same row after increasing `monthly_income` (index 2, 1 → 8) and
`invest_forex` (index 13, 1 → 2), all other fields fixed. -/
def cexRowB' : List ℚ := [1, 1, 8, 0, 0, 0, 2, 0, 1, 1, 0, 0, 1, 2]

/-- The batch before the increase. -/
def cexBatchC5 : Batch := [cexRowA, cexRowB]

/-- The batch after the increase. -/
def cexBatchC5' : Batch := [cexRowA, cexRowB']

lemma sdot_cexC5_d :
    sdot cexBatchC5 cexRowB aggressiveProfile = 9/5 := by
  simp only [sdot, meanCol, varCol, denomCol, colOf, listMean, cexBatchC5, cexRowA, cexRowB,
    aggressiveProfile, Finset.sum_range_succ, Finset.sum_range_zero,
    List.map_cons, List.map_nil, List.sum_cons, List.sum_nil, List.getD, List.get?,
    List.length_cons, List.length_nil]
  norm_num

lemma sdot_cexC5_q :
    sdot cexBatchC5 aggressiveProfile aggressiveProfile = 198/5 := by
  simp only [sdot, meanCol, varCol, denomCol, colOf, listMean, cexBatchC5, cexRowA, cexRowB,
    aggressiveProfile, Finset.sum_range_succ, Finset.sum_range_zero,
    List.map_cons, List.map_nil, List.sum_cons, List.sum_nil, List.getD, List.get?,
    List.length_cons, List.length_nil]
  norm_num

lemma sdot_cexC5'_d :
    sdot cexBatchC5' cexRowB' aggressiveProfile = -7/15 := by
  simp only [sdot, meanCol, varCol, denomCol, colOf, listMean, cexBatchC5', cexRowA, cexRowB',
    aggressiveProfile, Finset.sum_range_succ, Finset.sum_range_zero,
    List.map_cons, List.map_nil, List.sum_cons, List.sum_nil, List.getD, List.get?,
    List.length_cons, List.length_nil]
  norm_num

lemma sdot_cexC5'_q :
    sdot cexBatchC5' aggressiveProfile aggressiveProfile = 1688/45 := by
  simp only [sdot, meanCol, varCol, denomCol, colOf, listMean, cexBatchC5', cexRowA, cexRowB',
    aggressiveProfile, Finset.sum_range_succ, Finset.sum_range_zero,
    List.map_cons, List.map_nil, List.sum_cons, List.sum_nil, List.getD, List.get?,
    List.length_cons, List.length_nil]
  norm_num

/-- C5 counterexample: in the two-row batch `cexBatchC5`, increasing the
second row's `invest_forex` value and income (holding every other field
fixed) strictly decreases its cosine similarity to the standardized
aggressive archetype — the similarity drops from a positive value to a
negative one. -/
theorem forex_income_increase_decreases_aggressive_sim :
    cexRowB' = (cexRowB.set 2 8).set 13 2 ∧
    cexRowB.getD 2 0 < cexRowB'.getD 2 0 ∧
    cexRowB.getD 13 0 < cexRowB'.getD 13 0 ∧
    cosineSim cexBatchC5' cexRowB' aggressiveProfile <
      cosineSim cexBatchC5 cexRowB aggressiveProfile := by
  refine ⟨rfl, by norm_num [cexRowB, cexRowB'], by norm_num [cexRowB, cexRowB'], ?_⟩
  have hneg : cosineSim cexBatchC5' cexRowB' aggressiveProfile < 0 := by
    apply cosineSim_neg_of
    · rw [sdot_cexC5'_d]
      norm_num
    · rw [sdot_cexC5'_q]
      norm_num
  have hpos : 0 < cosineSim cexBatchC5 cexRowB aggressiveProfile := by
    apply cosineSim_pos_of
    · rw [sdot_cexC5_d]
      norm_num
    · rw [sdot_cexC5_q]
      norm_num
  exact lt_trans hneg hpos

/-- A household with every usage field "Currently use" (encoded 2) and
high income, as in the spec's round-trip example. -/
def allInRow : List ℚ := [1, 1, 90000, 30000, 2, 2, 2, 2, 2, 2, 2, 2, 2, 2]

/-- A second household making the batch statistics non-degenerate. -/
def plainRow : List ℚ := [1, 1, 40000, 35000, 0, 0, 0, 0, 0, 0, 0, 0, 0, 0]

/-- The batch for the amended C5 round-trip property. -/
def roundTripBatch : Batch := [allInRow, plainRow]

lemma sdot_rt_cons_d :
    sdot roundTripBatch allInRow conservativeProfile = 1599973/250000 := by
  simp only [sdot, meanCol, varCol, denomCol, colOf, listMean, roundTripBatch, allInRow,
    plainRow, conservativeProfile, Finset.sum_range_succ, Finset.sum_range_zero,
    List.map_cons, List.map_nil, List.sum_cons, List.sum_nil, List.getD, List.get?,
    List.length_cons, List.length_nil]
  norm_num

lemma sdot_rt_cons_q :
    sdot roundTripBatch conservativeProfile conservativeProfile
      = 11484801100909/62500000000 := by
  simp only [sdot, meanCol, varCol, denomCol, colOf, listMean, roundTripBatch, allInRow,
    plainRow, conservativeProfile, Finset.sum_range_succ, Finset.sum_range_zero,
    List.map_cons, List.map_nil, List.sum_cons, List.sum_nil, List.getD, List.get?,
    List.length_cons, List.length_nil]
  norm_num

lemma sdot_rt_bal_d :
    sdot roundTripBatch allInRow balancedProfile = 469991/50000 := by
  simp only [sdot, meanCol, varCol, denomCol, colOf, listMean, roundTripBatch, allInRow,
    plainRow, balancedProfile, Finset.sum_range_succ, Finset.sum_range_zero,
    List.map_cons, List.map_nil, List.sum_cons, List.sum_nil, List.getD, List.get?,
    List.length_cons, List.length_nil]
  norm_num

lemma sdot_rt_bal_q :
    sdot roundTripBatch balancedProfile balancedProfile = 441886740101/2500000000 := by
  simp only [sdot, meanCol, varCol, denomCol, colOf, listMean, roundTripBatch, allInRow,
    plainRow, balancedProfile, Finset.sum_range_succ, Finset.sum_range_zero,
    List.map_cons, List.map_nil, List.sum_cons, List.sum_nil, List.getD, List.get?,
    List.length_cons, List.length_nil]
  norm_num

lemma sdot_rt_agg_d :
    sdot roundTripBatch allInRow aggressiveProfile = 1799973/125000 := by
  simp only [sdot, meanCol, varCol, denomCol, colOf, listMean, roundTripBatch, allInRow,
    plainRow, aggressiveProfile, Finset.sum_range_succ, Finset.sum_range_zero,
    List.map_cons, List.map_nil, List.sum_cons, List.sum_nil, List.getD, List.get?,
    List.length_cons, List.length_nil]
  norm_num

lemma sdot_rt_agg_q :
    sdot roundTripBatch aggressiveProfile aggressiveProfile
      = 2902400550909/15625000000 := by
  simp only [sdot, meanCol, varCol, denomCol, colOf, listMean, roundTripBatch, allInRow,
    plainRow, aggressiveProfile, Finset.sum_range_succ, Finset.sum_range_zero,
    List.map_cons, List.map_nil, List.sum_cons, List.sum_nil, List.getD, List.get?,
    List.length_cons, List.length_nil]
  norm_num

lemma simLEArch_rt_20 : simLEArch roundTripBatch allInRow 2 0 = false := by
  unfold simLEArch
  rw [show archetypeProfile 2 = aggressiveProfile from rfl,
    show archetypeProfile 0 = conservativeProfile from rfl,
    sdot_rt_agg_d, sdot_rt_agg_q, sdot_rt_cons_d, sdot_rt_cons_q]
  norm_num [simLE, sgnDQ]

lemma simLEArch_rt_10 : simLEArch roundTripBatch allInRow 1 0 = false := by
  unfold simLEArch
  rw [show archetypeProfile 1 = balancedProfile from rfl,
    show archetypeProfile 0 = conservativeProfile from rfl,
    sdot_rt_bal_d, sdot_rt_bal_q, sdot_rt_cons_d, sdot_rt_cons_q]
  norm_num [simLE, sgnDQ]

lemma simLEArch_rt_21 : simLEArch roundTripBatch allInRow 2 1 = false := by
  unfold simLEArch
  rw [show archetypeProfile 2 = aggressiveProfile from rfl,
    show archetypeProfile 1 = balancedProfile from rfl,
    sdot_rt_agg_d, sdot_rt_agg_q, sdot_rt_bal_d, sdot_rt_bal_q]
  norm_num [simLE, sgnDQ]

/-- Amended C5: monotonicity in `invest_forex` and income does not hold
batch-globally (see the counterexample), but the spec's underlying
round-trip expectation does: in the batch `roundTripBatch`, the
household with all usage fields "Currently use" and high income scores
strictly closer to the aggressive archetype than to the conservative
one, and the labeler assigns it "aggressive". -/
theorem allin_row_scores_aggressive :
    cosineSim roundTripBatch allInRow conservativeProfile <
      cosineSim roundTripBatch allInRow aggressiveProfile ∧
    bestLabel roundTripBatch allInRow = "aggressive" := by
  constructor
  · by_contra hc
    push_neg at hc
    have := (simLEArch_iff roundTripBatch allInRow 2 0).2 hc
    rw [simLEArch_rt_20] at this
    exact Bool.false_ne_true this
  · unfold bestLabel
    rw [simLEArch_rt_10, simLEArch_rt_21]
    simp

/-- A raw table whose first row is exactly the spec example row:
area_type Urban, gender Female, income 40000, expenditure 35000, all
ten behavior fields "Never used" (encoded 0).  The second row makes the
batch statistics non-degenerate. -/
def specExampleTable : RawTable :=
  [ ("A08", [.str "Urban", .str "Rural"]),
    ("A13", [.str "Female", .str "Male"]),
    ("B3Ii", [.num 40000, .num 2]),
    ("U23", [.num 35000, .num 0]),
    ("C1_1a", [.str "Never used", .str "Never used"]),
    ("C1_2", [.str "Never used", .str "Currently use"]),
    ("C1_4", [.str "Never used", .str "Never used"]),
    ("C1_6", [.str "Never used", .str "Never used"]),
    ("C1_9", [.str "Never used", .str "Never used"]),
    ("C1_15", [.str "Never used", .str "Never used"]),
    ("C1_19", [.str "Never used", .str "Never used"]),
    ("C1_17", [.str "Never used", .str "Never used"]),
    ("C1_25", [.str "Never used", .str "Never used"]),
    ("C1_35", [.str "Never used", .str "Never used"]) ]

set_option maxHeartbeats 2000000 in
/-- C9 counterexample: a batch containing the spec example row (Urban,
Female, income 40000, expenditure 35000, all behaviors "Never used")
whose first row is NOT labeled "conservative": the pipeline labels it
"balanced". -/
theorem spec_example_row_not_conservative_in_every_batch :
    transform_finaccess_data specExampleTable = .ok ["balanced", "aggressive"] ∧
    ("balanced" : String) ≠ "conservative" := by
  constructor
  · simp [specExampleTable, transform_finaccess_data, lookupAll, relevantCols, List.lookup,
      encodeTable, semanticNames, areaVal, genderVal, moneyVal, usageVal, fillna, medianQ,
      sortQ, insertSorted, validCols, rowsOf, labelBatch, bestLabel, simLEArch, simLE, sgnDQ,
      sdot, meanCol, varCol, denomCol, colOf, listMean,
      archetypeProfile, conservativeProfile, balancedProfile, aggressiveProfile,
      Finset.sum_range_succ, Finset.sum_range_zero, String.reduceBEq, String.reduceEq,
      List.range_succ]
    norm_num
  · decide

/-- The spec example row after encoding. -/
def specExampleRow : List ℚ := [1, 1, 40000, 35000, 0, 0, 0, 0, 0, 0, 0, 0, 0, 0]

/-- Amended C9: a batch consisting solely of rows with the spec
example's attributes is labeled all-"conservative" (every column is
constant, all similarities tie at 0, and the tie-break picks the first
archetype); a batch merely containing such a row may label it
otherwise. -/
theorem homogeneous_spec_example_batch_conservative (n : ℕ) (hn : n ≠ 0) :
    labelBatch (List.replicate n specExampleRow) = List.replicate n "conservative" :=
  labelBatch_replicate hn specExampleRow

/-- Witness for the amended C9 at `n = 2`. -/
theorem homogeneous_spec_example_batch_conservative_witness :
    labelBatch (List.replicate 2 specExampleRow) = List.replicate 2 "conservative" :=
  homogeneous_spec_example_batch_conservative 2 (by norm_num)

lemma lookupAll_ok_length {cs : List String} {t : RawTable} {cols : List (List Cell)}
    (h : lookupAll cs t = .ok cols) : cols.length = cs.length := by
  induction cs generalizing cols with
  | nil =>
    unfold lookupAll at h
    cases h
    rfl
  | cons c rest ih =>
    unfold lookupAll at h
    cases hl : List.lookup c t with
    | none =>
      rw [hl] at h
      cases h
    | some col =>
      rw [hl] at h
      cases hr : lookupAll rest t with
      | error e =>
        rw [hr] at h
        cases h
      | ok cols' =>
        rw [hr] at h
        cases h
        simp [ih hr]

lemma lookupAll_ok_iff {cs : List String} {t : RawTable} :
    (∃ cols, lookupAll cs t = .ok cols) ↔
      ∀ c ∈ cs, (List.lookup c t).isSome := by
  induction cs with
  | nil =>
    simp [lookupAll]
  | cons c rest ih =>
    constructor
    · rintro ⟨cols, h⟩
      unfold lookupAll at h
      cases hl : List.lookup c t with
      | none =>
        rw [hl] at h
        cases h
      | some col =>
        rw [hl] at h
        cases hr : lookupAll rest t with
        | error e =>
          rw [hr] at h
          cases h
        | ok cols' =>
          intro d hd
          rcases List.mem_cons.1 hd with rfl | hd'
          · rw [hl]
            rfl
          · exact (ih.1 ⟨cols', hr⟩) d hd'
    · intro hall
      have hc := hall c (List.mem_cons_self c rest)
      cases hl : List.lookup c t with
      | none =>
        rw [hl] at hc
        cases hc
      | some col =>
        obtain ⟨cols', hr⟩ := ih.2 fun d hd => hall d (List.mem_cons_of_mem c hd)
        exact ⟨col :: cols', by unfold lookupAll; rw [hl, hr]⟩

lemma lookupAll_error_eq {cs : List String} {t : RawTable} {e : PipelineError}
    (h : lookupAll cs t = .error e) : e = .missingColumn := by
  induction cs with
  | nil =>
    unfold lookupAll at h
    cases h
  | cons c rest ih =>
    unfold lookupAll at h
    cases hl : List.lookup c t with
    | none =>
      rw [hl] at h
      cases h
      rfl
    | some col =>
      rw [hl] at h
      cases hr : lookupAll rest t with
      | error e' =>
        rw [hr] at h
        cases h
        exact ih hr
      | ok cols' =>
        rw [hr] at h
        cases h

/-- C6: the column selection step fails with the missing-column error
exactly when one of the fourteen expected source columns is absent, and
otherwise yields the dataset restricted to exactly the fourteen columns,
renamed to the semantic names. -/
theorem column_selection_contract (t : RawTable) :
    ((∃ c ∈ relevantCols, List.lookup c t = none) →
      selectAndRename t = .error .missingColumn) ∧
    ((∀ c ∈ relevantCols, (List.lookup c t).isSome) →
      ∃ cols, cols.length = 14 ∧ lookupAll relevantCols t = .ok cols ∧
        selectAndRename t = .ok (semanticNames.zip cols) ∧
        (semanticNames.zip cols).map Prod.fst = semanticNames) := by
  constructor
  · rintro ⟨c, hc, hnone⟩
    cases hall : lookupAll relevantCols t with
    | ok cols =>
      have := lookupAll_ok_iff.1 ⟨cols, hall⟩ c hc
      rw [hnone] at this
      cases this
    | error e =>
      have he := lookupAll_error_eq hall
      unfold selectAndRename
      rw [hall, he]
  · intro hall
    obtain ⟨cols, hok⟩ := lookupAll_ok_iff.2 hall
    have hlen : cols.length = 14 := lookupAll_ok_length hok
    refine ⟨cols, hlen, hok, ?_, ?_⟩
    · unfold selectAndRename
      rw [hok]
    · apply List.map_fst_zip
      rw [hlen]
      decide

/-- Witness for C6: on the empty table, `A08` is absent and selection
fails with the missing-column error. -/
theorem column_selection_contract_witness :
    selectAndRename [] = .error .missingColumn :=
  (column_selection_contract []).1 ⟨"A08", by decide, rfl⟩

/-- C7: the categorical encoder's complete value table.  The ten
usage-frequency fields map "Never used"/"Used to use"/"Currently use" to
0/1/2 and every other or missing value to 0; gender maps Male to 0 and
Female to 1, area type maps Rural to 0 and Urban to 1, and any value
outside those vocabularies encodes to NaN (`none`). -/
theorem categorical_encoder_table :
    (usageVal (.str "Never used") = 0 ∧ usageVal (.str "Used to use") = 1 ∧
      usageVal (.str "Currently use") = 2 ∧
      (∀ c : Cell,
        c ∉ [Cell.str "Never used", Cell.str "Used to use", Cell.str "Currently use"] →
          usageVal c = 0)) ∧
    (genderVal (.str "Male") = some 0 ∧ genderVal (.str "Female") = some 1 ∧
      (∀ c : Cell, c ∉ [Cell.str "Male", Cell.str "Female"] → genderVal c = none)) ∧
    (areaVal (.str "Rural") = some 0 ∧ areaVal (.str "Urban") = some 1 ∧
      (∀ c : Cell, c ∉ [Cell.str "Rural", Cell.str "Urban"] → areaVal c = none)) := by
  refine ⟨⟨rfl, rfl, rfl, ?_⟩, ⟨rfl, rfl, ?_⟩, ⟨rfl, rfl, ?_⟩⟩
  · intro c hc
    simp only [List.mem_cons, List.not_mem_nil, or_false, not_or] at hc
    obtain ⟨h1, h2, h3⟩ := hc
    unfold usageVal
    rw [if_neg h1, if_neg h2, if_neg h3]
  · intro c hc
    simp only [List.mem_cons, List.not_mem_nil, or_false, not_or] at hc
    obtain ⟨h1, h2⟩ := hc
    unfold genderVal
    rw [if_neg h1, if_neg h2]
  · intro c hc
    simp only [List.mem_cons, List.not_mem_nil, or_false, not_or] at hc
    obtain ⟨h1, h2⟩ := hc
    unfold areaVal
    rw [if_neg h1, if_neg h2]

/-- Witness for C7 on out-of-vocabulary cells. -/
theorem categorical_encoder_table_witness :
    usageVal (.num 5) = 0 ∧ genderVal .missing = none ∧
      areaVal (.str "Coastal") = none :=
  ⟨categorical_encoder_table.1.2.2.2 _ (by decide),
   categorical_encoder_table.2.1.2.2 _ (by decide),
   categorical_encoder_table.2.2.2.2 _ (by decide)⟩

/-- C8: imputation replaces exactly the missing entries of a money
column by the median of the column's present values, recomputed from the
given batch column (nothing is cached: `fillna` is a function of the
column alone), and the pipeline applies it to the income column
(position 2) and the expenditure column (position 3). -/
theorem median_imputation (c : List (Option ℚ)) (i : ℕ) (hi : i < c.length)
    (cols : List (List Cell)) :
    (fillna c).length = c.length ∧
    (∀ q : ℚ, c.getD i none = some q → (fillna c).getD i none = some q) ∧
    (c.getD i none = none → (fillna c).getD i none = medianQ (c.filterMap id)) ∧
    (encodeTable cols).getD 2 [] = fillna ((cols.getD 2 []).map moneyVal) ∧
    (encodeTable cols).getD 3 [] = fillna ((cols.getD 3 []).map moneyVal) := by
  have hmap : (fillna c).getD i none =
      (match c.getD i none with
        | some q => some q
        | none => medianQ (c.filterMap id)) := by
    unfold fillna
    exact getD_map _ c i hi none none
  refine ⟨by simp [fillna], ?_, ?_, rfl, rfl⟩
  · intro q hq
    rw [hmap, hq]
  · intro hq
    rw [hmap, hq]

/-- Witness for C8: in the column `[some 1, none, some 3]` the missing
middle entry is imputed with the batch median 2. -/
theorem median_imputation_witness :
    (fillna [some 1, none, some 3]).getD 1 none =
      medianQ ([some 1, none, some 3].filterMap id) ∧
    medianQ (([some 1, none, some 3] : List (Option ℚ)).filterMap id) = some 2 := by
  constructor
  · exact (median_imputation [some 1, none, some 3] 1 (by norm_num) []).2.2.1 rfl
  · norm_num [medianQ, sortQ, insertSorted, List.filterMap]

/-- The `relevant_cols` list as written in `main/main.py` (step 1). -/
def appRelevantCols : List String :=
  ["A08", "A13", "B3Ii", "U23", "C1_1a", "C1_2", "C1_4", "C1_6", "C1_9",
   "C1_15", "C1_17", "C1_19", "C1_25", "C1_35"]

/-- The `usage_map` dictionary as written in `main/main.py` (step 2). -/
def appUsageVal (c : Cell) : ℚ :=
  if c = .str "Never used" then 0
  else if c = .str "Used to use" then 1
  else if c = .str "Currently use" then 2
  else 0

/-- The gender map of `main/main.py` (step 3). -/
def appGenderVal (c : Cell) : Option ℚ :=
  if c = .str "Male" then some 0
  else if c = .str "Female" then some 1
  else none

/-- The area-type map of `main/main.py` (step 3). -/
def appAreaVal (c : Cell) : Option ℚ :=
  if c = .str "Rural" then some 0
  else if c = .str "Urban" then some 1
  else none

/-- Steps 2–4 of `main/main.py` on the fourteen selected columns;
`fillna`/median and the numeric cell reading are the same pandas library
operations as in the script. -/
def appEncodeTable (cols : List (List Cell)) : List (List (Option ℚ)) :=
  [ (cols.getD 0 []).map appAreaVal,
    (cols.getD 1 []).map appGenderVal,
    fillna ((cols.getD 2 []).map moneyVal),
    fillna ((cols.getD 3 []).map moneyVal),
    (cols.getD 4 []).map (fun c => some (appUsageVal c)),
    (cols.getD 5 []).map (fun c => some (appUsageVal c)),
    (cols.getD 6 []).map (fun c => some (appUsageVal c)),
    (cols.getD 7 []).map (fun c => some (appUsageVal c)),
    (cols.getD 8 []).map (fun c => some (appUsageVal c)),
    (cols.getD 9 []).map (fun c => some (appUsageVal c)),
    (cols.getD 10 []).map (fun c => some (appUsageVal c)),
    (cols.getD 11 []).map (fun c => some (appUsageVal c)),
    (cols.getD 12 []).map (fun c => some (appUsageVal c)),
    (cols.getD 13 []).map (fun c => some (appUsageVal c)) ]

/-- The `investment_profiles` rows as written in `main/main.py`. -/
def appArchetypeProfile : Fin 3 → List ℚ
  | 0 => [1, 1, 3/10, 3/10, 2, 1, 2, 1, 0, 0, 0, 0, 0, 0]
  | 1 => [1, 1, 1/2, 1/2, 1, 1, 1, 1, 1, 1, 1, 1, 1, 0]
  | 2 => [1, 1, 3/5, 3/5, 0, 2, 0, 0, 2, 2, 2, 2, 2, 2]

/-- The per-row labeling of `main/main.py` (step 5 and the `nlargest`
line); the scaler and `cosine_similarity` are the same sklearn library
operations as in the script. -/
def appBestLabel (b : Batch) (x : List ℚ) : String :=
  if simLE (sdot b x (appArchetypeProfile 1))
        (sdot b (appArchetypeProfile 1) (appArchetypeProfile 1))
        (sdot b x (appArchetypeProfile 0))
        (sdot b (appArchetypeProfile 0) (appArchetypeProfile 0)) &&
      simLE (sdot b x (appArchetypeProfile 2))
        (sdot b (appArchetypeProfile 2) (appArchetypeProfile 2))
        (sdot b x (appArchetypeProfile 0))
        (sdot b (appArchetypeProfile 0) (appArchetypeProfile 0)) then "conservative"
  else if simLE (sdot b x (appArchetypeProfile 2))
        (sdot b (appArchetypeProfile 2) (appArchetypeProfile 2))
        (sdot b x (appArchetypeProfile 1))
        (sdot b (appArchetypeProfile 1) (appArchetypeProfile 1)) then "balanced"
  else "aggressive"

/-- The labeling pipeline of the FastAPI endpoint `recommend_investments`
(`main/main.py`), after the uploaded spreadsheet has been parsed. -/
def recommend_investments_core (t : RawTable) :
    Except PipelineError (List String) :=
  match lookupAll appRelevantCols t with
  | .error e => .error e
  | .ok cols =>
    let enc := appEncodeTable cols
    let n := (enc.headD []).length
    if validCols enc n then .ok ((rowsOf enc n).map (appBestLabel (rowsOf enc n)))
    else .error .valueError

/-- Models `file.filename.endswith(".xlsx")`. -/
def endsWithXlsx (s : String) : Bool :=
  List.isSuffixOf ".xlsx".toList s.toList

/-- The FastAPI endpoint: rejects non-`.xlsx` filenames with HTTP 400,
then runs the labeling pipeline on the parsed table. -/
def recommend_investments (filename : String) (t : RawTable) :
    Except PipelineError (List String) :=
  if endsWithXlsx filename then recommend_investments_core t
  else .error .badFileType

lemma appBestLabel_eq : appBestLabel = bestLabel := by
  funext b x
  rfl

/-- C10: for every parsed input table accepted by the endpoint's file
check, the FastAPI endpoint and the script pipeline compute identical
`investment_label` values (and identical errors): the two
implementations of the labeling pipeline are equivalent. -/
theorem endpoint_equals_script (filename : String) (t : RawTable)
    (h : endsWithXlsx filename = true) :
    recommend_investments filename t = transform_finaccess_data t := by
  unfold recommend_investments
  rw [if_pos h]
  rfl

/-- Witness for C10 at a concrete filename and table. -/
theorem endpoint_equals_script_witness :
    recommend_investments "households.xlsx" specExampleTable =
      transform_finaccess_data specExampleTable :=
  endpoint_equals_script "households.xlsx" specExampleTable (by decide)

end InvestmentRecommender
